import Mathlib

/-!
Shallow embedding of `packages/salesforcedx-vscode-apex-replay-debugger/src/commands/quickLaunch.ts`.

The file under verification orchestrates one workflow: ensure trace flags are
set, run a single Apex test synchronously, retrieve the debug log it produced,
and hand the local log file to the replay debugger.  External collaborators
(the workspace connection, the `TestService`, the `LogService`, the log output
directory resolver) are modelled as an explicit environment record `Env`; the
observable effects (calls to `launchFromLogFile` and to
`notificationService.showErrorMessage`, plus the remote calls issued) are
recorded in an explicit trace.

JavaScript truthiness on optional strings (`!tests[0].apexLogId`,
`testResult.success && testResult.logFileId`, `else if (testResult.message)`,
`testMethod ? [testMethod] : undefined`) is modelled faithfully by
`strTruthy`: an optional string is truthy exactly when it is present and
non-empty.  A raised JavaScript error is modelled as `Except.error` carrying
the error's `message` string; `runTestSynchronous` may raise (and is caught in
`runSingleTest`), `getLogs` may raise (and is not caught, so the error
propagates out of `retrieveLogFile` and `debugTest`).
-/

set_option autoImplicit false

namespace QuickLaunchSpec

/-- Truthiness of an optional JavaScript string: `undefined` and the empty
string are falsy, every other string is truthy. -/
def strTruthy : Option String → Bool
  | none => false
  | some s => !s.isEmpty

/-- From `@salesforce/apex-node` `ApexTestResultData`; only the field read by
this file (`apexLogId`, an optional string) is modelled. -/
structure ApexTestResultData where
  apexLogId : Option String
  deriving DecidableEq, Repr

/-- From `@salesforce/apex-node` `TestItem`: one test target of a run request.
`testMethods` is `undefined` or a list of method names. -/
structure TestItem where
  className : String
  testMethods : Option (List String)
  deriving DecidableEq, Repr

/-- From `@salesforce/apex-node` `SyncTestConfiguration`: the request passed to
`runTestSynchronous`. -/
structure SyncTestConfiguration where
  tests : List TestItem
  testLevel : String
  deriving DecidableEq, Repr

/-- From `@salesforce/apex-node` `TestResult`: the value returned by
`runTestSynchronous`.  Only `tests` is read by this file; `summary` stands in
for the remaining fields, which the code never inspects. -/
structure TestResult where
  summary : String
  tests : List ApexTestResultData
  deriving DecidableEq, Repr

/-- `TestRunResult` (quickLaunch.ts lines 27-31). -/
structure TestRunResult where
  logFileId : Option String := none
  message : Option String := none
  success : Bool
  deriving DecidableEq, Repr

/-- `LogFileRetrieveResult` (quickLaunch.ts lines 33-36). -/
structure LogFileRetrieveResult where
  filePath : Option String := none
  success : Bool
  deriving DecidableEq, Repr

/-- Modelled from the spec: localization (`nls.localize`) is an external
collaborator out of scope of the core; a localized message is represented by
its key, which keeps distinct messages distinct. -/
def nls.localize (key : String) : String := key

/-- Modelled from the spec: `path.join(outputDir, file)` computes
`outputDirectory / file` (spec section 4.3); separator normalization of the
real Node `path.join` is out of scope. -/
def path.join (dir file : String) : String := dir ++ "/" ++ file

/-- The external collaborators borrowed by one orchestration call:
`TraceFlags.ensureTraceFlags` (the diagnostics readiness check, never raises),
`TestService.runTestSynchronous` (blocking remote call, may raise),
`LogService.getLogs` (log download keyed by `(logId, outputDir)`, may raise),
and `getLogDirPath` (the resolved log output directory). -/
structure Env where
  ensureTraceFlags : Bool
  runTestSynchronous : SyncTestConfiguration → Except String TestResult
  getLogs : String → String → Except String Unit
  getLogDirPath : String

/-- The `testOptions` value built at quickLaunch.ts lines 76-84:
one `TestItem` for the target class, `testMethods` set to `[testMethod]` when
`testMethod` is truthy and `undefined` otherwise, `testLevel`
"RunSpecifiedTests". -/
def QuickLaunch.testOptions (testClass : String) (testMethod : Option String) :
    SyncTestConfiguration :=
  { tests := [{ className := testClass
                testMethods := match testMethod with
                  | some m => if m.isEmpty then none else some [m]
                  | none => none }]
    testLevel := "RunSpecifiedTests" }

/-- `QuickLaunch.runSingleTest` (quickLaunch.ts lines 71-109).  Returns the
`TestRunResult` together with the request it sent, so the orchestrator's trace
can record the remote call.  The `try/catch` around `runTestSynchronous` is
the `Except` match: any raised error becomes a failure result carrying the
error's message. -/
def QuickLaunch.runSingleTest (env : Env) (testClass : String)
    (testMethod : Option String) : TestRunResult × SyncTestConfiguration :=
  let testOptions := QuickLaunch.testOptions testClass testMethod
  match env.runTestSynchronous testOptions with
  | Except.ok result =>
    match result.tests with
    | [] =>
      ({ success := false, message := some (nls.localize "debug_test_no_results_found") },
       testOptions)
    | t0 :: _ =>
      if !strTruthy t0.apexLogId then
        ({ success := false, message := some (nls.localize "debug_test_no_debug_log") },
         testOptions)
      else
        ({ logFileId := t0.apexLogId, success := true }, testOptions)
  | Except.error e => ({ message := some e, success := false }, testOptions)

/-- `QuickLaunch.retrieveLogFile` (quickLaunch.ts lines 111-121).  The
`getLogs` call is not wrapped in any local handler, so a raised error
propagates (`Except.error`).  On success the result records the `(logId,
outputDir)` pair passed to `getLogs`, for the orchestrator's trace. -/
def QuickLaunch.retrieveLogFile (env : Env) (logId : String) :
    Except String (LogFileRetrieveResult × String × String) :=
  let outputDir := env.getLogDirPath
  match env.getLogs logId outputDir with
  | Except.error e => Except.error e
  | Except.ok _ =>
    let logPath := path.join outputDir (logId ++ ".log")
    Except.ok ({ filePath := some logPath, success := true }, logId, outputDir)

/-- The observable outcome of one `debugTest` call: the returned boolean plus
the calls made to the remote test service, the log download transport, the
replay launcher (`launchFromLogFile(path, isStopOnEntry)`), and the
notification surface (`showErrorMessage`). -/
structure DebugTestTrace where
  result : Bool
  runTestCalls : List SyncTestConfiguration
  getLogsCalls : List (String × String)
  launchCalls : List (String × Bool)
  notifications : List String
  deriving DecidableEq, Repr

/-- `QuickLaunch.debugTest` (quickLaunch.ts lines 39-69).  An uncaught raise
from the log download is `Except.error`; every other path returns a trace.
The `else if (testResult.message)` guard is truthiness on the optional
message string. -/
def QuickLaunch.debugTest (env : Env) (testClass : String)
    (testName : Option String) : Except String DebugTestTrace :=
  if !env.ensureTraceFlags then
    Except.ok { result := false, runTestCalls := [], getLogsCalls := [],
                launchCalls := [], notifications := [] }
  else
    let tr := QuickLaunch.runSingleTest env testClass testName
    let testResult := tr.1
    let opts := tr.2
    if testResult.success && strTruthy testResult.logFileId then
      match QuickLaunch.retrieveLogFile env (testResult.logFileId.getD "") with
      | Except.error e => Except.error e
      | Except.ok (logFileRetrive, call) =>
        if logFileRetrive.success && strTruthy logFileRetrive.filePath then
          Except.ok { result := true, runTestCalls := [opts], getLogsCalls := [call],
                      launchCalls := [(logFileRetrive.filePath.getD "", false)],
                      notifications := [] }
        else
          Except.ok { result := false, runTestCalls := [opts], getLogsCalls := [call],
                      launchCalls := [], notifications := [] }
    else
      match testResult.message with
      | some msg =>
        if msg.isEmpty then
          Except.ok { result := false, runTestCalls := [opts], getLogsCalls := [],
                      launchCalls := [], notifications := [] }
        else
          Except.ok { result := false, runTestCalls := [opts], getLogsCalls := [],
                      launchCalls := [], notifications := [msg] }
      | none =>
        Except.ok { result := false, runTestCalls := [opts], getLogsCalls := [],
                    launchCalls := [], notifications := [] }

/-- `ContinueResponse<string[]>` as used by `TestDebuggerExecutor.run`:
`data` may be absent at runtime (the code guards `!response.data`). -/
structure ContinueResponse where
  type : String
  data : Option (List String)
  deriving DecidableEq, Repr

/-- `TestDebuggerExecutor.run` (quickLaunch.ts lines 128-139).  When `data` is
absent it returns `false` before constructing `QuickLaunch`; otherwise it
returns exactly what `debugTest(data[0], data[1])` returns.  `data[1]` is
`undefined` when the array is shorter, hence `List.get?`; for `data[0]` the
empty string stands in for the out-of-range `undefined`, which no claim
exercises. -/
def TestDebuggerExecutor.run (env : Env) (response : ContinueResponse) :
    Except String Bool :=
  match response.data with
  | none => Except.ok false
  | some data =>
    let className := data.getD 0 ""
    let methodName := data.get? 1
    (QuickLaunch.debugTest env className methodName).map (fun t => t.result)

/-! ### Helper lemmas -/

/-- The request sent by `runSingleTest` is always the `testOptions` built from
its arguments, whatever the remote service does. -/
theorem runSingleTest_snd (env : Env) (tc : String) (tm : Option String) :
    (QuickLaunch.runSingleTest env tc tm).2 = QuickLaunch.testOptions tc tm := by
  unfold QuickLaunch.runSingleTest
  dsimp only
  cases env.runTestSynchronous (QuickLaunch.testOptions tc tm) with
  | error e => rfl
  | ok r =>
    dsimp only
    cases r.tests with
    | nil => rfl
    | cons t0 rest =>
      by_cases h : strTruthy t0.apexLogId <;> simp [h]

/-- A truthy optional string is present. -/
theorem strTruthy_isSome {o : Option String} (h : strTruthy o = true) :
    o.isSome = true := by
  cases o with
  | none => simp [strTruthy] at h
  | some s => rfl

/-- A joined path is never the empty string. -/
theorem path.join_isEmpty (dir file : String) :
    (path.join dir file).isEmpty = false := by
  rw [Bool.eq_false_iff]
  intro hempty
  rw [String.isEmpty_iff] at hempty
  have h := congrArg String.length hempty
  have hsep : ("/" : String).length = 1 := rfl
  have hnil : ("" : String).length = 0 := rfl
  rw [path.join] at h
  rw [String.length_append, String.length_append, hsep, hnil] at h
  omega

/-! ### Concrete environments used by the witnesses -/

/-- Happy path: trace flags on, one test entry with log id `07LX`, download
succeeds, output directory `out`. -/
def envA : Env where
  ensureTraceFlags := true
  runTestSynchronous := fun _ =>
    Except.ok { summary := "", tests := [{ apexLogId := some "07LX" }] }
  getLogs := fun _ _ => Except.ok ()
  getLogDirPath := "out"

/-- The remote invocation raises `Error("timeout")`. -/
def envErr : Env where
  ensureTraceFlags := true
  runTestSynchronous := fun _ => Except.error "timeout"
  getLogs := fun _ _ => Except.ok ()
  getLogDirPath := "out"

/-- The remote invocation returns a first entry without a log id and a later
entry that does carry one. -/
def envNoLog : Env where
  ensureTraceFlags := true
  runTestSynchronous := fun _ =>
    Except.ok { summary := "", tests := [{ apexLogId := none }, { apexLogId := some "07LY" }] }
  getLogs := fun _ _ => Except.ok ()
  getLogDirPath := "out"

/-- The remote invocation returns zero test entries. -/
def envEmpty : Env where
  ensureTraceFlags := true
  runTestSynchronous := fun _ => Except.ok { summary := "s", tests := [] }
  getLogs := fun _ _ => Except.ok ()
  getLogDirPath := "out"

/-- The trace-flags readiness check fails. -/
def envFlagsOff : Env where
  ensureTraceFlags := false
  runTestSynchronous := fun _ => Except.error "must not be called"
  getLogs := fun _ _ => Except.error "must not be called"
  getLogDirPath := "out"

/-! ### Claims -/

/-- Claim C1: whenever the trace-flags readiness check returns true, the
remote invocation returns a first test entry carrying a log identifier, and
the log download does not raise, `debugTest` returns `true` and
`launchFromLogFile` is invoked exactly once, with the computed local log path
`<outputDir>/<logId>.log` as first argument and `isStopOnEntry = false` as
second. -/
theorem debugTest_success_launches_once (env : Env) (tc : String)
    (tm : Option String) (summary logId : String) (t0 : ApexTestResultData)
    (rest : List ApexTestResultData)
    (hflags : env.ensureTraceFlags = true)
    (hrun : env.runTestSynchronous (QuickLaunch.testOptions tc tm)
              = Except.ok { summary := summary, tests := t0 :: rest })
    (hid : t0.apexLogId = some logId)
    (hne : logId.isEmpty = false)
    (hlogs : env.getLogs logId env.getLogDirPath = Except.ok ()) :
    QuickLaunch.debugTest env tc tm
      = Except.ok { result := true
                    runTestCalls := [QuickLaunch.testOptions tc tm]
                    getLogsCalls := [(logId, env.getLogDirPath)]
                    launchCalls := [(path.join env.getLogDirPath (logId ++ ".log"), false)]
                    notifications := [] } := by
  have hrst : QuickLaunch.runSingleTest env tc tm
      = ({ logFileId := some logId, success := true }, QuickLaunch.testOptions tc tm) := by
    simp [QuickLaunch.runSingleTest, hrun, hid, strTruthy, hne]
  have hret : QuickLaunch.retrieveLogFile env logId
      = Except.ok ({ filePath := some (path.join env.getLogDirPath (logId ++ ".log")),
                     success := true }, logId, env.getLogDirPath) := by
    simp [QuickLaunch.retrieveLogFile, hlogs]
  simp [QuickLaunch.debugTest, hflags, hrst, strTruthy, hne, hret, path.join_isEmpty]

/-- Witness for C1 at a concrete environment. -/
theorem debugTest_success_launches_once_witness :
    envA.ensureTraceFlags = true ∧
    envA.runTestSynchronous (QuickLaunch.testOptions "MyClass" (some "testOne"))
      = Except.ok { summary := "", tests := [{ apexLogId := some "07LX" }] } ∧
    ("07LX" : String).isEmpty = false ∧
    envA.getLogs "07LX" envA.getLogDirPath = Except.ok () ∧
    QuickLaunch.debugTest envA "MyClass" (some "testOne")
      = Except.ok { result := true
                    runTestCalls := [QuickLaunch.testOptions "MyClass" (some "testOne")]
                    getLogsCalls := [("07LX", "out")]
                    launchCalls := [(path.join "out" ("07LX" ++ ".log"), false)]
                    notifications := [] } :=
  ⟨rfl, rfl, by decide, rfl,
    debugTest_success_launches_once envA "MyClass" (some "testOne") ""
      "07LX" { apexLogId := some "07LX" } [] rfl rfl rfl (by decide) rfl⟩

/-- Claim C2: every error raised by the remote synchronous test-execution call
is caught by `runSingleTest`, which returns a failure outcome whose message
equals that error's message text; the raw error is never propagated (the
function returns a plain `TestRunResult`). -/
theorem runSingleTest_catches_error (env : Env) (tc : String)
    (tm : Option String) (e : String)
    (h : env.runTestSynchronous (QuickLaunch.testOptions tc tm) = Except.error e) :
    QuickLaunch.runSingleTest env tc tm
      = ({ logFileId := none, message := some e, success := false },
         QuickLaunch.testOptions tc tm) := by
  simp [QuickLaunch.runSingleTest, h]

/-- Witness for C2: the invocation raises `Error("timeout")`. -/
theorem runSingleTest_catches_error_witness :
    envErr.runTestSynchronous (QuickLaunch.testOptions "MyClass" none)
      = Except.error "timeout" ∧
    QuickLaunch.runSingleTest envErr "MyClass" none
      = ({ logFileId := none, message := some "timeout", success := false },
         QuickLaunch.testOptions "MyClass" none) :=
  ⟨rfl, runSingleTest_catches_error envErr "MyClass" none "timeout" rfl⟩

/-- Claim C3: when the remote invocation result has a non-empty test list
whose first entry lacks a log identifier, `runSingleTest` returns a failure
outcome with the "no debug log" message, whatever the later entries carry. -/
theorem runSingleTest_no_debug_log (env : Env) (tc : String) (tm : Option String)
    (summary : String) (t0 : ApexTestResultData) (rest : List ApexTestResultData)
    (hrun : env.runTestSynchronous (QuickLaunch.testOptions tc tm)
              = Except.ok { summary := summary, tests := t0 :: rest })
    (hid : t0.apexLogId = none) :
    (QuickLaunch.runSingleTest env tc tm).1
      = { logFileId := none, success := false,
          message := some (nls.localize "debug_test_no_debug_log") } := by
  simp [QuickLaunch.runSingleTest, hrun, hid, strTruthy]

/-- Witness for C3: the second entry does carry a log identifier, yet the
outcome is still the "no debug log" failure. -/
theorem runSingleTest_no_debug_log_witness :
    envNoLog.runTestSynchronous (QuickLaunch.testOptions "MyClass" none)
      = Except.ok { summary := "",
                    tests := [{ apexLogId := none }, { apexLogId := some "07LY" }] } ∧
    ApexTestResultData.apexLogId { apexLogId := none } = none ∧
    (QuickLaunch.runSingleTest envNoLog "MyClass" none).1
      = { logFileId := none, success := false,
          message := some (nls.localize "debug_test_no_debug_log") } :=
  ⟨rfl, rfl,
    runSingleTest_no_debug_log envNoLog "MyClass" none ""
      { apexLogId := none } [{ apexLogId := some "07LY" }] rfl rfl⟩

/-- Claim C4: when the remote invocation result has an empty test list,
`runSingleTest` returns a failure outcome with the "no results found"
message, regardless of any other field of the result. -/
theorem runSingleTest_no_results (env : Env) (tc : String) (tm : Option String)
    (summary : String)
    (hrun : env.runTestSynchronous (QuickLaunch.testOptions tc tm)
              = Except.ok { summary := summary, tests := [] }) :
    (QuickLaunch.runSingleTest env tc tm).1
      = { logFileId := none, success := false,
          message := some (nls.localize "debug_test_no_results_found") } := by
  simp [QuickLaunch.runSingleTest, hrun]

/-- Witness for C4 at a concrete environment. -/
theorem runSingleTest_no_results_witness :
    envEmpty.runTestSynchronous (QuickLaunch.testOptions "MyClass" none)
      = Except.ok { summary := "s", tests := [] } ∧
    (QuickLaunch.runSingleTest envEmpty "MyClass" none).1
      = { logFileId := none, success := false,
          message := some (nls.localize "debug_test_no_results_found") } :=
  ⟨rfl, runSingleTest_no_results envEmpty "MyClass" none "s" rfl⟩

/-- Claim C5: when the trace flags are ready and the invocation outcome is
not (success with a log reference), if the outcome carries a message then
`debugTest` surfaces exactly that message exactly once via
`showErrorMessage`, returns `false`, and neither the log download nor the
replay launcher is ever invoked. -/
theorem debugTest_surfaces_failure_message (env : Env) (tc : String)
    (tm : Option String) (msg : String)
    (hflags : env.ensureTraceFlags = true)
    (hfail : ((QuickLaunch.runSingleTest env tc tm).1.success
                && strTruthy (QuickLaunch.runSingleTest env tc tm).1.logFileId) = false)
    (hmsg : (QuickLaunch.runSingleTest env tc tm).1.message = some msg)
    (hne : msg.isEmpty = false) :
    QuickLaunch.debugTest env tc tm
      = Except.ok { result := false
                    runTestCalls := [QuickLaunch.testOptions tc tm]
                    getLogsCalls := []
                    launchCalls := []
                    notifications := [msg] } := by
  have hsnd := runSingleTest_snd env tc tm
  rcases hr : QuickLaunch.runSingleTest env tc tm with ⟨res, opts⟩
  rw [hr] at hfail hmsg hsnd
  simp only at hfail hmsg hsnd
  simp [QuickLaunch.debugTest, hflags, hr, hfail, hmsg, hne, hsnd]

/-- Witness for C5: the invocation raises `Error("timeout")`; the message
`"timeout"` is surfaced exactly once and nothing else runs. -/
theorem debugTest_surfaces_failure_message_witness :
    envErr.ensureTraceFlags = true ∧
    ((QuickLaunch.runSingleTest envErr "MyClass" none).1.success
        && strTruthy (QuickLaunch.runSingleTest envErr "MyClass" none).1.logFileId) = false ∧
    (QuickLaunch.runSingleTest envErr "MyClass" none).1.message = some "timeout" ∧
    ("timeout" : String).isEmpty = false ∧
    QuickLaunch.debugTest envErr "MyClass" none
      = Except.ok { result := false
                    runTestCalls := [QuickLaunch.testOptions "MyClass" none]
                    getLogsCalls := []
                    launchCalls := []
                    notifications := ["timeout"] } :=
  ⟨rfl, rfl, rfl, by decide,
    debugTest_surfaces_failure_message envErr "MyClass" none "timeout"
      rfl rfl rfl (by decide)⟩

/-- Claim C6: when the trace-flags readiness check returns false, `debugTest`
returns `false` silently: no notification, no remote test invocation, no log
download, no launcher call. -/
theorem debugTest_flags_not_ready (env : Env) (tc : String) (tm : Option String)
    (h : env.ensureTraceFlags = false) :
    QuickLaunch.debugTest env tc tm
      = Except.ok { result := false, runTestCalls := [], getLogsCalls := [],
                    launchCalls := [], notifications := [] } := by
  simp [QuickLaunch.debugTest, h]

/-- Witness for C6 at a concrete environment whose collaborators would raise
if they were reached. -/
theorem debugTest_flags_not_ready_witness :
    envFlagsOff.ensureTraceFlags = false ∧
    QuickLaunch.debugTest envFlagsOff "MyClass" (some "testOne")
      = Except.ok { result := false, runTestCalls := [], getLogsCalls := [],
                    launchCalls := [], notifications := [] } :=
  ⟨rfl, debugTest_flags_not_ready envFlagsOff "MyClass" (some "testOne") rfl⟩

/-- Claim C7: for every log reference, whenever the log download call does not
raise, `retrieveLogFile` returns a success outcome whose local path is the
resolved output directory joined with the log reference plus the `.log`
suffix; the only non-error result it can produce has `success := true`. -/
theorem retrieveLogFile_computes_path (env : Env) (logId : String)
    (h : env.getLogs logId env.getLogDirPath = Except.ok ()) :
    QuickLaunch.retrieveLogFile env logId
      = Except.ok ({ filePath := some (path.join env.getLogDirPath (logId ++ ".log")),
                     success := true }, logId, env.getLogDirPath) := by
  simp [QuickLaunch.retrieveLogFile, h]

/-- Witness for C7: downloading log `07LX` into directory `out` yields the
local path `out/07LX.log`. -/
theorem retrieveLogFile_computes_path_witness :
    envA.getLogs "07LX" envA.getLogDirPath = Except.ok () ∧
    QuickLaunch.retrieveLogFile envA "07LX"
      = Except.ok ({ filePath := some (path.join "out" ("07LX" ++ ".log")),
                     success := true }, "07LX", "out") :=
  ⟨rfl, retrieveLogFile_computes_path envA "07LX" rfl⟩

/-- Claim C8: when a (non-empty, hence truthy) method name is supplied, the
request built by `runSingleTest` carries exactly one test item constrained to
exactly that method of that class; when no method name is supplied, the test
item names the class with no method constraint; in both cases `testLevel` is
"RunSpecifiedTests". -/
theorem runSingleTest_request_scope (env : Env) (tc m : String)
    (hm : m.isEmpty = false) :
    ((QuickLaunch.runSingleTest env tc (some m)).2
        = { tests := [{ className := tc, testMethods := some [m] }],
            testLevel := "RunSpecifiedTests" })
  ∧ ((QuickLaunch.runSingleTest env tc none).2
        = { tests := [{ className := tc, testMethods := none }],
            testLevel := "RunSpecifiedTests" }) := by
  refine ⟨?_, ?_⟩ <;> rw [runSingleTest_snd] <;>
    simp [QuickLaunch.testOptions, hm]

/-- Witness for C8 at a concrete class and method name. -/
theorem runSingleTest_request_scope_witness :
    ("testOne" : String).isEmpty = false ∧
    (((QuickLaunch.runSingleTest envA "MyClass" (some "testOne")).2
        = { tests := [{ className := "MyClass", testMethods := some ["testOne"] }],
            testLevel := "RunSpecifiedTests" })
      ∧ ((QuickLaunch.runSingleTest envA "MyClass" none).2
        = { tests := [{ className := "MyClass", testMethods := none }],
            testLevel := "RunSpecifiedTests" })) :=
  ⟨by decide, runSingleTest_request_scope envA "MyClass" "testOne" (by decide)⟩

/-- Claim C9: every outcome produced by `runSingleTest` satisfies the
`TestRunResult` invariant: on success the log reference is present, on
failure it is absent. -/
theorem runSingleTest_outcome_invariant (env : Env) (tc : String)
    (tm : Option String) :
    ((QuickLaunch.runSingleTest env tc tm).1.success = true
        ∧ ((QuickLaunch.runSingleTest env tc tm).1.logFileId).isSome = true)
  ∨ ((QuickLaunch.runSingleTest env tc tm).1.success = false
        ∧ (QuickLaunch.runSingleTest env tc tm).1.logFileId = none) := by
  unfold QuickLaunch.runSingleTest
  dsimp only
  cases env.runTestSynchronous (QuickLaunch.testOptions tc tm) with
  | error e => right; exact ⟨rfl, rfl⟩
  | ok r =>
    dsimp only
    cases r.tests with
    | nil => right; exact ⟨rfl, rfl⟩
    | cons t0 rest =>
      cases hid : strTruthy t0.apexLogId with
      | false => right; simp [hid]
      | true => left; simp [hid, strTruthy_isSome hid]

/-- Claim C10: `TestDebuggerExecutor.run` returns `false` without touching any
collaborator when the payload is absent (the result does not depend on the
environment), and otherwise returns exactly the boolean produced by
`debugTest` applied to the payload's first element as class name and second
element as method name. -/
theorem testDebuggerExecutor_run_delegates (env : Env) (t c : String)
    (rest : List String) :
    (TestDebuggerExecutor.run env { type := t, data := none } = Except.ok false)
  ∧ (TestDebuggerExecutor.run env { type := t, data := some (c :: rest) }
       = (QuickLaunch.debugTest env c (rest.get? 0)).map (fun tr => tr.result)) :=
  ⟨rfl, rfl⟩

end QuickLaunchSpec
